import Mathlib

/-!
# Verification of `pc_specs_checker.py`

Shallow embedding of the compatibility checker in
`src/scripts/pc_specs_checker.py`, together with theorems settling the
spec's claims about it.

Modelling conventions:
* Python `int` values (benchmark scores, RAM sizes, requirement thresholds)
  are `Int`; the CPU clock speed (a Python `float` used only in the
  estimation product) is `ℚ`.
* Python's true division `/` is modelled by exact division on `ℚ`; the
  float literal `0.5` is the rational `1/2`.  A division whose denominator
  is zero raises `ZeroDivisionError` in Python; the embedded evaluator
  returns `none` in exactly that situation, and `some` of the structured
  result everywhere else.
* Python optional keyword arguments (`cores=None`, …) are `Option` values;
  `if cores and clock_speed:` tests truthiness, i.e. "is not `None` and is
  not zero", which is embedded literally.
* `int(x)` on a float truncates toward zero: `pythonInt` below.
* Python `dict` benchmark tables are association lists looked up by exact
  (case-sensitive) string match; keys are distinct, so `List.lookup`
  agrees with dict lookup.
-/

-- Batteries marks the arithmetic on `ℚ` irreducible, which would keep
-- `decide` from evaluating the evaluator on concrete inputs; restore the
-- default reducibility for this development.
attribute [local semireducible] Rat.mul Rat.inv Rat.add Rat.sub

/-- Python `int(x)`: truncation toward zero. -/
def pythonInt (q : ℚ) : Int :=
  if 0 ≤ q then ⌊q⌋ else ⌈q⌉

/-- `CPU_BENCHMARK_DB` from `pc_specs_checker.py` (lines 21-46). -/
def CPU_BENCHMARK_DB : List (String × Int) :=
  [ ("Intel Core i9-13900K", 45000),
    ("Intel Core i7-13700K", 38000),
    ("Intel Core i5-13600K", 32000),
    ("Intel Core i9-12900K", 40000),
    ("Intel Core i7-12700K", 35000),
    ("Intel Core i5-12600K", 28000),
    ("Intel Core i7-11700K", 25000),
    ("Intel Core i5-11600K", 20000),
    ("Intel Core i7-10700K", 22000),
    ("Intel Core i5-10400", 15000),
    ("Intel Core i3-10100", 10000),
    ("AMD Ryzen 9 7950X", 48000),
    ("AMD Ryzen 9 7900X", 42000),
    ("AMD Ryzen 7 7700X", 35000),
    ("AMD Ryzen 5 7600X", 28000),
    ("AMD Ryzen 9 5950X", 38000),
    ("AMD Ryzen 9 5900X", 35000),
    ("AMD Ryzen 7 5800X", 28000),
    ("AMD Ryzen 5 5600X", 22000),
    ("AMD Ryzen 7 3700X", 20000),
    ("AMD Ryzen 5 3600", 16000),
    ("AMD Ryzen 3 3300X", 12000) ]

/-- `GPU_BENCHMARK_DB` from `pc_specs_checker.py` (lines 50-82). -/
def GPU_BENCHMARK_DB : List (String × Int) :=
  [ ("NVIDIA GeForce RTX 4090", 35000),
    ("NVIDIA GeForce RTX 4080", 28000),
    ("NVIDIA GeForce RTX 4070 Ti", 24000),
    ("NVIDIA GeForce RTX 4070", 20000),
    ("NVIDIA GeForce RTX 4060 Ti", 16000),
    ("NVIDIA GeForce RTX 4060", 14000),
    ("NVIDIA GeForce RTX 3090", 25000),
    ("NVIDIA GeForce RTX 3080", 22000),
    ("NVIDIA GeForce RTX 3070", 18000),
    ("NVIDIA GeForce RTX 3060 Ti", 15000),
    ("NVIDIA GeForce RTX 3060", 13000),
    ("NVIDIA GeForce RTX 3050", 10000),
    ("NVIDIA GeForce GTX 1660 Ti", 9000),
    ("NVIDIA GeForce GTX 1660", 8000),
    ("NVIDIA GeForce GTX 1650", 6000),
    ("AMD Radeon RX 7900 XTX", 30000),
    ("AMD Radeon RX 7900 XT", 26000),
    ("AMD Radeon RX 7800 XT", 22000),
    ("AMD Radeon RX 7700 XT", 18000),
    ("AMD Radeon RX 7600", 14000),
    ("AMD Radeon RX 6900 XT", 23000),
    ("AMD Radeon RX 6800 XT", 20000),
    ("AMD Radeon RX 6700 XT", 16000),
    ("AMD Radeon RX 6600 XT", 12000),
    ("AMD Radeon RX 6600", 10000),
    ("AMD Radeon RX 6500 XT", 7000) ]

/-- Python truthiness of an optional `Int` argument
(`None` and `0` are falsy). -/
def truthyInt : Option Int → Bool
  | none => false
  | some n => n ≠ 0

/-- Python truthiness of an optional `ℚ` (float) argument
(`None` and `0.0` are falsy). -/
def truthyRat : Option ℚ → Bool
  | none => false
  | some q => q ≠ 0

/-- `get_cpu_score` (lines 85-108): exact table lookup, else the
estimation `int(cores * clock_speed * 1000)` when both optional
arguments are truthy, else the default `10000`. -/
def get_cpu_score (cpu_name : String) (cores : Option Int)
    (clock_speed : Option ℚ) : Int :=
  match CPU_BENCHMARK_DB.lookup cpu_name with
  | some score => score
  | none =>
    if truthyInt cores && truthyRat clock_speed then
      pythonInt ((cores.getD 0 : ℚ) * clock_speed.getD 0 * 1000)
    else
      10000

/-- `get_gpu_score` (lines 111-143): exact table lookup, else a VRAM
step function when `vram_gb` is truthy, else the default `8000`. -/
def get_gpu_score (gpu_name : String) (vram_gb : Option Int) : Int :=
  match GPU_BENCHMARK_DB.lookup gpu_name with
  | some score => score
  | none =>
    if truthyInt vram_gb then
      let v := vram_gb.getD 0
      if v ≥ 16 then 20000
      else if v ≥ 12 then 15000
      else if v ≥ 8 then 12000
      else if v ≥ 6 then 9000
      else if v ≥ 4 then 6000
      else 3000
    else
      8000

/-- The `"cpu"` entry of the `user_hardware` dict (docstring lines 153-158). -/
structure CPUInfo where
  name : String
  cores : Option Int
  clock_speed : Option ℚ
  score : Option Int

/-- The `"gpu"` entry of the `user_hardware` dict (docstring lines 159-163). -/
structure GPUInfo where
  name : String
  vram_gb : Option Int
  score : Option Int

/-- The `user_hardware` dict (docstring lines 152-165). -/
structure UserHardware where
  cpu : CPUInfo
  gpu : GPUInfo
  ram_gb : Int

/-- One tier (`"minimum"` or `"recommended"`) of `game_requirements`
(docstring lines 168-179). -/
structure ReqTier where
  cpu_score : Int
  gpu_score : Int
  ram_gb : Int
deriving DecidableEq

/-- The `game_requirements` dict. -/
structure GameRequirements where
  minimum : ReqTier
  recommended : ReqTier
deriving DecidableEq

/-- The `"user_scores"` sub-dict of `"details"` (lines 256-260). -/
structure UserScores where
  cpu : Int
  gpu : Int
  ram : Int
deriving DecidableEq

/-- The `"details"` dict of the result (lines 249-261), present
identically in all three return branches. -/
structure Details where
  cpu_meets_min : Bool
  cpu_meets_rec : Bool
  gpu_meets_min : Bool
  gpu_meets_rec : Bool
  ram_meets_min : Bool
  ram_meets_rec : Bool
  user_scores : UserScores
deriving DecidableEq

/-- The result dict of `check_game_compatibility` (docstring lines 182-195). -/
structure CompatResult where
  can_run : Bool
  settings : String
  notes : String
  details : Details
deriving DecidableEq

/-- `gap` computation of the tier classifier (lines 288-290): the
normalized position `(user - min) / (rec - min)`, as exact division on ℚ.
Only ever called with a nonzero denominator; the zero-denominator case is
intercepted by `evaluate` (Python raises `ZeroDivisionError` there). -/
def gap (user min_v rec_v : Int) : ℚ :=
  ((user - min_v : Int) : ℚ) / ((rec_v - min_v : Int) : ℚ)

/-- Steps 2-6 of `check_game_compatibility` (lines 216-319): the
threshold evaluator and tier classifier, acting on the three resolved
user scores.  `none` models the `ZeroDivisionError` Python raises in the
low/medium branch when some dimension has `rec == min` (lines 288-290);
every other input returns `some` of the structured result. -/
def evaluate (user_cpu_score user_gpu_score user_ram_gb : Int)
    (game_requirements : GameRequirements) : Option CompatResult :=
  let min_reqs := game_requirements.minimum
  let rec_reqs := game_requirements.recommended
  -- Step 3: check minimum requirements (lines 221-223)
  let cpu_meets_min : Bool := user_cpu_score ≥ min_reqs.cpu_score
  let gpu_meets_min : Bool := user_gpu_score ≥ min_reqs.gpu_score
  let ram_meets_min : Bool := user_ram_gb ≥ min_reqs.ram_gb
  -- Step 4: check recommended requirements (lines 226-228)
  let cpu_meets_rec : Bool := user_cpu_score ≥ rec_reqs.cpu_score
  let gpu_meets_rec : Bool := user_gpu_score ≥ rec_reqs.gpu_score
  let ram_meets_rec : Bool := user_ram_gb ≥ rec_reqs.ram_gb
  -- Step 5 (lines 231-232)
  let meets_minimum := cpu_meets_min && gpu_meets_min && ram_meets_min
  let meets_recommended := cpu_meets_rec && gpu_meets_rec && ram_meets_rec
  -- Step 6 (lines 235-319)
  if !meets_minimum then
    let mc := min_reqs.cpu_score
    let mg := min_reqs.gpu_score
    let mr := min_reqs.ram_gb
    let bottlenecks : List String :=
      (if !cpu_meets_min then
        [s!"CPU (yours: {user_cpu_score}, need: {mc})"] else []) ++
      (if !gpu_meets_min then
        [s!"GPU (yours: {user_gpu_score}, need: {mg})"] else []) ++
      (if !ram_meets_min then
        [s!"RAM (yours: {user_ram_gb}GB, need: {mr}GB)"] else [])
    some
      { can_run := false
        settings := "Cannot Run"
        notes := "Hardware below minimum requirements. Bottlenecks: " ++
          String.intercalate ", " bottlenecks
        details :=
          { cpu_meets_min := cpu_meets_min
            cpu_meets_rec := cpu_meets_rec
            gpu_meets_min := gpu_meets_min
            gpu_meets_rec := gpu_meets_rec
            ram_meets_min := ram_meets_min
            ram_meets_rec := ram_meets_rec
            user_scores :=
              { cpu := user_cpu_score
                gpu := user_gpu_score
                ram := user_ram_gb } } }
  else if meets_recommended then
    some
      { can_run := true
        settings := "High"
        notes := "Your hardware meets or exceeds recommended requirements. Enjoy high settings!"
        details :=
          { cpu_meets_min := cpu_meets_min
            cpu_meets_rec := cpu_meets_rec
            gpu_meets_min := gpu_meets_min
            gpu_meets_rec := gpu_meets_rec
            ram_meets_min := ram_meets_min
            ram_meets_rec := ram_meets_rec
            user_scores :=
              { cpu := user_cpu_score
                gpu := user_gpu_score
                ram := user_ram_gb } } }
  else
    -- lines 288-290: unguarded divisions; a zero denominator raises
    if rec_reqs.cpu_score = min_reqs.cpu_score ∨
       rec_reqs.gpu_score = min_reqs.gpu_score ∨
       rec_reqs.ram_gb = min_reqs.ram_gb then
      none
    else
      let cpu_gap := gap user_cpu_score min_reqs.cpu_score rec_reqs.cpu_score
      let gpu_gap := gap user_gpu_score min_reqs.gpu_score rec_reqs.gpu_score
      let ram_gap := gap user_ram_gb min_reqs.ram_gb rec_reqs.ram_gb
      -- line 293
      let avg_gap := (cpu_gap + gpu_gap + ram_gap) / 3
      -- lines 295-300 (`0.5` is exactly 1/2)
      let settings := if avg_gap ≥ 1 / 2 then "Medium" else "Low"
      let notes := if avg_gap ≥ 1 / 2 then
          "Your hardware is between minimum and recommended. Expect medium settings."
        else
          "Your hardware meets minimum requirements. Expect low settings for smooth gameplay."
      some
        { can_run := true
          settings := settings
          notes := notes
          details :=
            { cpu_meets_min := cpu_meets_min
              cpu_meets_rec := cpu_meets_rec
              gpu_meets_min := gpu_meets_min
              gpu_meets_rec := gpu_meets_rec
              ram_meets_min := ram_meets_min
              ram_meets_rec := ram_meets_rec
              user_scores :=
                { cpu := user_cpu_score
                  gpu := user_gpu_score
                  ram := user_ram_gb } } }

/-- Step 1 of `check_game_compatibility` for the CPU (lines 199-205): a
pre-supplied `score` is used verbatim, otherwise the resolver runs. -/
def resolve_cpu_score (cpu : CPUInfo) : Int :=
  match cpu.score with
  | some s => s
  | none => get_cpu_score cpu.name cpu.cores cpu.clock_speed

/-- Step 1 of `check_game_compatibility` for the GPU (lines 207-212). -/
def resolve_gpu_score (gpu : GPUInfo) : Int :=
  match gpu.score with
  | some s => s
  | none => get_gpu_score gpu.name gpu.vram_gb

/-- `check_game_compatibility` (lines 146-319): resolve the user's three
scores (Step 1), then run the threshold evaluator / tier classifier. -/
def check_game_compatibility (user_hardware : UserHardware)
    (game_requirements : GameRequirements) : Option CompatResult :=
  evaluate (resolve_cpu_score user_hardware.cpu)
    (resolve_gpu_score user_hardware.gpu)
    user_hardware.ram_gb game_requirements

/-- Tier labels in their documented total order
(`Cannot Run < Low < Medium < High`), as a rank for comparison. -/
def tierRank (s : String) : Nat :=
  if s = "Low" then 1
  else if s = "Medium" then 2
  else if s = "High" then 3
  else 0

/-- The tier label `evaluate` assigns, in closed form (valid whenever
the gap denominators are nonzero); used to reason about monotonicity. -/
def tierOf (uc ug ur : Int) (gr : GameRequirements) : String :=
  if uc ≥ gr.minimum.cpu_score ∧ ug ≥ gr.minimum.gpu_score ∧
      ur ≥ gr.minimum.ram_gb then
    if uc ≥ gr.recommended.cpu_score ∧ ug ≥ gr.recommended.gpu_score ∧
        ur ≥ gr.recommended.ram_gb then
      "High"
    else if (gap uc gr.minimum.cpu_score gr.recommended.cpu_score +
        gap ug gr.minimum.gpu_score gr.recommended.gpu_score +
        gap ur gr.minimum.ram_gb gr.recommended.ram_gb) / 3 ≥ 1 / 2 then
      "Medium"
    else
      "Low"
  else
    "Cannot Run"

/-- The spec's documented GPU estimation: a step function of VRAM
capacity in GB banding into six tiers
(≥16→20000, ≥12→15000, ≥8→12000, ≥6→9000, ≥4→6000, else→3000).
Written from the spec text, to be compared with `get_gpu_score`. -/
def spec_gpu_band (v : Int) : Int :=
  if v ≥ 16 then 20000
  else if v ≥ 12 then 15000
  else if v ≥ 8 then 12000
  else if v ≥ 6 then 9000
  else if v ≥ 4 then 6000
  else 3000

/-- The notes enumeration the spec requires in the Cannot-Run case: one
entry per failing dimension (none for a passing one), in CPU, GPU, RAM
order, each carrying the literal user value and minimum value in
"yours: X, need: Y" form.  Written from the spec text, to be compared
with the notes `evaluate` produces. -/
def spec_bottlenecks (ucpu ugpu uram : Int) (m : ReqTier) : List String :=
  let mc := m.cpu_score
  let mg := m.gpu_score
  let mr := m.ram_gb
  (if ucpu < mc then [s!"CPU (yours: {ucpu}, need: {mc})"] else []) ++
  (if ugpu < mg then [s!"GPU (yours: {ugpu}, need: {mg})"] else []) ++
  (if uram < mr then [s!"RAM (yours: {uram}GB, need: {mr}GB)"] else [])

/-- Scenario B's exact evaluator output (user scores 10000/6000/4 against
minimum 16000/9000/8, recommended 25000/18000/16), used as a concrete
result record in witnesses. -/
def resScenarioB : CompatResult :=
  { can_run := false
    settings := "Cannot Run"
    notes := "Hardware below minimum requirements. Bottlenecks: CPU (yours: 10000, need: 16000), GPU (yours: 6000, need: 9000), RAM (yours: 4GB, need: 8GB)"
    details :=
      { cpu_meets_min := false
        cpu_meets_rec := false
        gpu_meets_min := false
        gpu_meets_rec := false
        ram_meets_min := false
        ram_meets_rec := false
        user_scores := { cpu := 10000, gpu := 6000, ram := 4 } } }

/-- Claim C4: a component name present in the relevant benchmark table
resolves to exactly the table's value, regardless of which secondary
attributes are supplied alongside. -/
theorem table_value_overrides_attributes :
    (∀ name s cores clock, CPU_BENCHMARK_DB.lookup name = some s →
      get_cpu_score name cores clock = s) ∧
    (∀ name s vram, GPU_BENCHMARK_DB.lookup name = some s →
      get_gpu_score name vram = s) := by
  constructor
  · intro name s cores clock h
    unfold get_cpu_score
    rw [h]
  · intro name s vram h
    unfold get_gpu_score
    rw [h]

/-- Witness for C4: a CPU and a GPU from the tables, looked up with
(secondary) attributes also supplied, return the table values. -/
theorem table_value_overrides_attributes_witness :
    get_cpu_score "Intel Core i9-13900K" (some 99) (some 1) = 45000 ∧
    get_gpu_score "NVIDIA GeForce RTX 4090" (some 1) = 35000 :=
  ⟨table_value_overrides_attributes.1 "Intel Core i9-13900K" 45000
      (some 99) (some 1) rfl,
   table_value_overrides_attributes.2 "NVIDIA GeForce RTX 4090" 35000
      (some 1) rfl⟩

/-- Counterexample to C3 as stated: supplying `cores = 0` for an unknown
CPU does not produce the documented estimate `int(0 * 3 * 1000) = 0`;
the truthiness guard falls through to the default 10000. -/
theorem unknown_estimation_formula_cx :
    get_cpu_score "Mystery CPU" (some 0) (some 3) ≠
      pythonInt (((0 : Int) : ℚ) * 3 * 1000) := by decide

/-- Claim C3 (amended): for every component name absent from the
relevant table whose supplied secondary attributes are nonzero (Python
truthy), the resolver returns exactly the documented estimate:
`int(cores * clock_speed * 1000)` for CPUs and the six-band VRAM step
value for GPUs. -/
theorem unknown_estimation_formula :
    (∀ name c q, CPU_BENCHMARK_DB.lookup name = none → c ≠ 0 → q ≠ 0 →
      get_cpu_score name (some c) (some q) =
        pythonInt ((c : ℚ) * q * 1000)) ∧
    (∀ name v, GPU_BENCHMARK_DB.lookup name = none → v ≠ 0 →
      get_gpu_score name (some v) = spec_gpu_band v) := by
  constructor
  · intro name c q h hc hq
    unfold get_cpu_score
    rw [h]
    simp [truthyInt, truthyRat, hc, hq]
  · intro name v h hv
    unfold get_gpu_score spec_gpu_band
    rw [h]
    simp [truthyInt, hv]

/-- Witness for C3 (amended): an unknown 4-core, 3.5 GHz CPU estimates
to 14000 and an unknown 8 GB GPU bands to 12000. -/
theorem unknown_estimation_formula_witness :
    get_cpu_score "Mystery CPU" (some 4) (some (7 / 2)) =
      pythonInt (((4 : Int) : ℚ) * (7 / 2) * 1000) ∧
    get_gpu_score "Mystery GPU" (some 8) = spec_gpu_band 8 :=
  ⟨unknown_estimation_formula.1 "Mystery CPU" 4 (7 / 2) rfl
      (by decide) (by decide),
   unknown_estimation_formula.2 "Mystery GPU" 8 rfl (by decide)⟩

/-- Claim C9: the attribute guards test Python truthiness, not presence:
an unknown CPU supplied with `cores = 0` or `clock_speed = 0` resolves
to the default 10000 (not the formula's 0), and an unknown GPU supplied
with `vram_gb = 0` resolves to the default 8000 (not the lowest band
3000). -/
theorem zero_attribute_falls_to_default :
    (∀ name cores clock, CPU_BENCHMARK_DB.lookup name = none →
      cores = some 0 ∨ clock = some 0 →
      get_cpu_score name cores clock = 10000) ∧
    (∀ name, GPU_BENCHMARK_DB.lookup name = none →
      get_gpu_score name (some 0) = 8000) := by
  constructor
  · intro name cores clock h hz
    unfold get_cpu_score
    rw [h]
    rcases hz with hz | hz <;> subst hz <;>
      simp [truthyInt, truthyRat]
  · intro name h
    unfold get_gpu_score
    rw [h]
    simp [truthyInt]

/-- Witness for C9: concrete unknown names with zero attributes hit the
defaults. -/
theorem zero_attribute_falls_to_default_witness :
    get_cpu_score "Mystery CPU" (some 0) (some 3) = 10000 ∧
    get_gpu_score "Mystery GPU" (some 0) = 8000 :=
  ⟨zero_attribute_falls_to_default.1 "Mystery CPU" (some 0) (some 3)
      rfl (Or.inl rfl),
   zero_attribute_falls_to_default.2 "Mystery GPU" rfl⟩

/-- Claim C1: at an evaluation where one dimension's recommended
threshold equals its minimum (here the CPU: min = rec = 10, user 10
meets it) and the overall result falls strictly between minimum and
recommended, the gap division's denominator is zero and the code raises
an unhandled `ZeroDivisionError` (modelled as `none`) instead of
applying a safe zero-division policy. -/
theorem gap_division_unguarded_raises :
    evaluate 10 15 12 ⟨⟨10, 10, 8⟩, ⟨10, 20, 16⟩⟩ = none := by decide

/-- Counterexample to C6 as stated: for a requirements profile with a
minimum above its recommended value on one dimension, a user profile
exactly matching every recommended value fails that minimum and lands
on "Cannot Run", not "High". -/
theorem equal_recommended_is_high_cx :
    (evaluate 10000 18000 16
        ⟨⟨20000, 9000, 8⟩, ⟨10000, 18000, 16⟩⟩).map CompatResult.settings =
      some "Cannot Run" ∧
    (evaluate 10000 18000 16
        ⟨⟨20000, 9000, 8⟩, ⟨10000, 18000, 16⟩⟩).map CompatResult.settings ≠
      some "High" := by decide

/-- Claim C6 (amended): for every requirements profile whose minimum
does not exceed its recommended value on any dimension, user scores
exactly equal to every recommended value yield tier "High" with
`can_run = true` (all comparisons are non-strict `≥`). -/
theorem equal_recommended_is_high (gr : GameRequirements)
    (h1 : gr.minimum.cpu_score ≤ gr.recommended.cpu_score)
    (h2 : gr.minimum.gpu_score ≤ gr.recommended.gpu_score)
    (h3 : gr.minimum.ram_gb ≤ gr.recommended.ram_gb) :
    (evaluate gr.recommended.cpu_score gr.recommended.gpu_score
        gr.recommended.ram_gb gr).map CompatResult.settings = some "High" ∧
    (evaluate gr.recommended.cpu_score gr.recommended.gpu_score
        gr.recommended.ram_gb gr).map CompatResult.can_run = some true := by
  constructor <;> simp [evaluate, h1, h2, h3]

/-- Witness for C6 (amended): the spec's example profile, evaluated at
exactly its recommended values, is "High" and can run. -/
theorem equal_recommended_is_high_witness :
    (evaluate 25000 18000 16
        ⟨⟨16000, 9000, 8⟩, ⟨25000, 18000, 16⟩⟩).map CompatResult.settings =
      some "High" ∧
    (evaluate 25000 18000 16
        ⟨⟨16000, 9000, 8⟩, ⟨25000, 18000, 16⟩⟩).map CompatResult.can_run =
      some true :=
  equal_recommended_is_high ⟨⟨16000, 9000, 8⟩, ⟨25000, 18000, 16⟩⟩
    (by decide) (by decide) (by decide)

/-- Counterexample to C7 as stated: an evaluation with well-formed
inputs (user meets every minimum, every minimum strictly below its
recommended value) that reaches the between-minimum-and-recommended
branch ("Medium") while the CPU's normalized gap, 14/9, exceeds 1. -/
theorem gap_in_unit_interval_cx :
    (evaluate 30000 10000 16
        ⟨⟨16000, 9000, 8⟩, ⟨25000, 18000, 16⟩⟩).map CompatResult.settings =
      some "Medium" ∧
    (16000 : Int) < 25000 ∧ (9000 : Int) < 18000 ∧ (8 : Int) < 16 ∧
    (30000 : Int) ≥ 16000 ∧ (10000 : Int) ≥ 9000 ∧ (16 : Int) ≥ 8 ∧
    ¬ gap 30000 16000 25000 ≤ 1 := by decide

/-- Claim C7 (amended): under well-formed inputs (user meets the
minimum, minimum strictly below recommended) each normalized gap is
nonnegative, and is at most 1 exactly when the user's score does not
exceed the recommended value on that dimension; the upper bound can
fail on a dimension whose score exceeds recommended. -/
theorem gap_in_unit_interval (u m r : Int) (hmu : m ≤ u) (hmr : m < r) :
    0 ≤ gap u m r ∧ (u ≤ r → gap u m r ≤ 1) := by
  unfold gap
  have hd : (0 : ℚ) < ((r - m : Int) : ℚ) := by
    exact_mod_cast sub_pos.mpr hmr
  constructor
  · exact div_nonneg (by exact_mod_cast sub_nonneg.mpr hmu) hd.le
  · intro hur
    rw [div_le_one hd]
    exact_mod_cast sub_le_sub_right hur m

/-- Witness for C7 (amended): the spec's Scenario A CPU triple
(user 22000, min 16000, rec 25000). -/
theorem gap_in_unit_interval_witness :
    0 ≤ gap 22000 16000 25000 ∧
    ((22000 : Int) ≤ 25000 → gap 22000 16000 25000 ≤ 1) :=
  gap_in_unit_interval 22000 16000 25000 (by decide) (by decide)

set_option maxHeartbeats 1000000 in
/-- Claim C5: whenever some minimum flag fails, the result has
`can_run = false`, `settings = "Cannot Run"`, and its notes string
enumerates exactly the failing dimensions (none of the passing ones)
with the literal user and minimum values in "yours: X, need: Y" form,
joined as a comma-separated list. -/
theorem below_minimum_result (uc ug ur : Int) (gr : GameRequirements)
    (h : ¬(uc ≥ gr.minimum.cpu_score ∧ ug ≥ gr.minimum.gpu_score ∧
        ur ≥ gr.minimum.ram_gb)) :
    (evaluate uc ug ur gr).map CompatResult.can_run = some false ∧
    (evaluate uc ug ur gr).map CompatResult.settings = some "Cannot Run" ∧
    (evaluate uc ug ur gr).map CompatResult.notes =
      some ("Hardware below minimum requirements. Bottlenecks: " ++
        String.intercalate ", " (spec_bottlenecks uc ug ur gr.minimum)) := by
  refine ⟨?_, ?_, ?_⟩ <;>
  · simp only [evaluate, spec_bottlenecks]
    split_ifs <;>
      simp_all only [Bool.not_eq_true', Bool.and_eq_false_iff,
        Bool.and_eq_true, decide_eq_true_eq, decide_eq_false_iff_not,
        Option.map_some, Option.some.injEq] <;>
      first | rfl | omega

/-- Witness for C5: the spec's Scenario B (all three minimums fail). -/
theorem below_minimum_result_witness :
    (evaluate 10000 6000 4
        ⟨⟨16000, 9000, 8⟩, ⟨25000, 18000, 16⟩⟩).map CompatResult.can_run =
      some false ∧
    (evaluate 10000 6000 4
        ⟨⟨16000, 9000, 8⟩, ⟨25000, 18000, 16⟩⟩).map CompatResult.settings =
      some "Cannot Run" ∧
    (evaluate 10000 6000 4
        ⟨⟨16000, 9000, 8⟩, ⟨25000, 18000, 16⟩⟩).map CompatResult.notes =
      some ("Hardware below minimum requirements. Bottlenecks: " ++
        String.intercalate ", "
          (spec_bottlenecks 10000 6000 4 ⟨16000, 9000, 8⟩)) :=
  below_minimum_result 10000 6000 4
    ⟨⟨16000, 9000, 8⟩, ⟨25000, 18000, 16⟩⟩ (by decide)

/-- Claim C8: whatever branch produced a returned result, its details
carry the six boolean flags, each equal to the corresponding non-strict
`≥` comparison, plus the three resolved user scores. -/
theorem details_stable (uc ug ur : Int) (gr : GameRequirements)
    (res : CompatResult) (h : evaluate uc ug ur gr = some res) :
    res.details =
      { cpu_meets_min := decide (uc ≥ gr.minimum.cpu_score)
        cpu_meets_rec := decide (uc ≥ gr.recommended.cpu_score)
        gpu_meets_min := decide (ug ≥ gr.minimum.gpu_score)
        gpu_meets_rec := decide (ug ≥ gr.recommended.gpu_score)
        ram_meets_min := decide (ur ≥ gr.minimum.ram_gb)
        ram_meets_rec := decide (ur ≥ gr.recommended.ram_gb)
        user_scores := { cpu := uc, gpu := ug, ram := ur } } := by
  simp only [evaluate] at h
  split_ifs at h <;> (cases h; rfl)

/-- Witness for C8: the Scenario B result's details are exactly the six
comparisons plus the resolved scores. -/
theorem details_stable_witness :
    resScenarioB.details =
      { cpu_meets_min := decide ((10000 : Int) ≥ 16000)
        cpu_meets_rec := decide ((10000 : Int) ≥ 25000)
        gpu_meets_min := decide ((6000 : Int) ≥ 9000)
        gpu_meets_rec := decide ((6000 : Int) ≥ 18000)
        ram_meets_min := decide ((4 : Int) ≥ 8)
        ram_meets_rec := decide ((4 : Int) ≥ 16)
        user_scores := { cpu := 10000, gpu := 6000, ram := 4 } } :=
  details_stable 10000 6000 4 ⟨⟨16000, 9000, 8⟩, ⟨25000, 18000, 16⟩⟩
    resScenarioB (by decide)

/-- Claim C10: a returned result has `can_run = false` exactly when its
settings label is "Cannot Run", and `can_run = true` exactly when the
label is one of "Low", "Medium", "High". -/
theorem cannot_run_iff (uc ug ur : Int) (gr : GameRequirements)
    (res : CompatResult) (h : evaluate uc ug ur gr = some res) :
    (res.can_run = false ↔ res.settings = "Cannot Run") ∧
    (res.can_run = true ↔
      res.settings = "Low" ∨ res.settings = "Medium" ∨
        res.settings = "High") := by
  simp only [evaluate] at h
  split_ifs at h <;>
    (cases h; constructor <;> constructor <;> intro hx <;> simp_all)

/-- Witness for C10: the Scenario B result. -/
theorem cannot_run_iff_witness :
    (resScenarioB.can_run = false ↔ resScenarioB.settings = "Cannot Run") ∧
    (resScenarioB.can_run = true ↔
      resScenarioB.settings = "Low" ∨ resScenarioB.settings = "Medium" ∨
        resScenarioB.settings = "High") :=
  cannot_run_iff 10000 6000 4 ⟨⟨16000, 9000, 8⟩, ⟨25000, 18000, 16⟩⟩
    resScenarioB (by decide)

/-- Helper: whenever every gap denominator is nonzero, the settings
label `evaluate` returns is `tierOf`. -/
theorem evaluate_settings_closed_form (uc ug ur : Int)
    (gr : GameRequirements)
    (hcne : gr.recommended.cpu_score ≠ gr.minimum.cpu_score)
    (hgne : gr.recommended.gpu_score ≠ gr.minimum.gpu_score)
    (hrne : gr.recommended.ram_gb ≠ gr.minimum.ram_gb) :
    (evaluate uc ug ur gr).map CompatResult.settings =
      some (tierOf uc ug ur gr) := by
  simp only [evaluate, tierOf]
  split_ifs <;>
    simp_all only [Bool.not_eq_true', Bool.and_eq_false_iff,
      Bool.and_eq_true, decide_eq_true_eq, decide_eq_false_iff_not,
      Option.map_some, not_and, not_or, Option.some.injEq] <;>
    tauto

/-- Helper: the normalized gap is monotone in the user score when the
minimum is strictly below the recommended value. -/
theorem gap_mono_user (u u2 m r : Int) (h : u ≤ u2) (hmr : m < r) :
    gap u m r ≤ gap u2 m r := by
  unfold gap
  have hd : (0 : ℚ) < ((r - m : Int) : ℚ) := by
    exact_mod_cast sub_pos.mpr hmr
  rw [div_le_div_iff_of_pos_right hd]
  exact_mod_cast sub_le_sub_right h m

/-- Counterexample to C2 as stated: over arbitrary requirements
profiles the claim fails.  With minimum {cpu 20, gpu 10, ram 8} and
recommended {cpu 10, gpu 20, ram 16} (cpu minimum above recommended),
raising only the cpu score from 20 to 30 drops the tier from "Medium"
to "Low". -/
theorem tier_monotone_cx :
    (evaluate 20 15 16
        ⟨⟨20, 10, 8⟩, ⟨10, 20, 16⟩⟩).map CompatResult.settings =
      some "Medium" ∧
    (evaluate 30 15 16
        ⟨⟨20, 10, 8⟩, ⟨10, 20, 16⟩⟩).map CompatResult.settings =
      some "Low" ∧
    tierRank "Low" < tierRank "Medium" := by decide

/-- Claim C2 (amended): for requirements profiles whose minimum is
strictly below the recommended value on every dimension, raising user
scores (in particular raising exactly one of them) never moves the
settings tier downward in the order
Cannot Run < Low < Medium < High. -/
theorem tier_monotone (uc ug ur uc2 ug2 ur2 : Int) (gr : GameRequirements)
    (hwc : gr.minimum.cpu_score < gr.recommended.cpu_score)
    (hwg : gr.minimum.gpu_score < gr.recommended.gpu_score)
    (hwr : gr.minimum.ram_gb < gr.recommended.ram_gb)
    (hc : uc ≤ uc2) (hg : ug ≤ ug2) (hr : ur ≤ ur2)
    (s1 s2 : String)
    (h1 : (evaluate uc ug ur gr).map CompatResult.settings = some s1)
    (h2 : (evaluate uc2 ug2 ur2 gr).map CompatResult.settings = some s2) :
    tierRank s1 ≤ tierRank s2 := by
  rw [evaluate_settings_closed_form uc ug ur gr (ne_of_gt hwc)
    (ne_of_gt hwg) (ne_of_gt hwr)] at h1
  rw [evaluate_settings_closed_form uc2 ug2 ur2 gr (ne_of_gt hwc)
    (ne_of_gt hwg) (ne_of_gt hwr)] at h2
  obtain rfl : tierOf uc ug ur gr = s1 := Option.some.inj h1
  obtain rfl : tierOf uc2 ug2 ur2 gr = s2 := Option.some.inj h2
  unfold tierOf
  by_cases hA : uc ≥ gr.minimum.cpu_score ∧ ug ≥ gr.minimum.gpu_score ∧
      ur ≥ gr.minimum.ram_gb
  · have hA2 : uc2 ≥ gr.minimum.cpu_score ∧ ug2 ≥ gr.minimum.gpu_score ∧
        ur2 ≥ gr.minimum.ram_gb :=
      ⟨le_trans hA.1 hc, le_trans hA.2.1 hg, le_trans hA.2.2 hr⟩
    rw [if_pos hA, if_pos hA2]
    by_cases hB2 : uc2 ≥ gr.recommended.cpu_score ∧
        ug2 ≥ gr.recommended.gpu_score ∧ ur2 ≥ gr.recommended.ram_gb
    · rw [if_pos hB2]
      split_ifs <;> decide
    · have hB1 : ¬(uc ≥ gr.recommended.cpu_score ∧
          ug ≥ gr.recommended.gpu_score ∧ ur ≥ gr.recommended.ram_gb) :=
        fun hB => hB2 ⟨le_trans hB.1 hc, le_trans hB.2.1 hg,
          le_trans hB.2.2 hr⟩
      rw [if_neg hB1, if_neg hB2]
      have havg : (gap uc gr.minimum.cpu_score gr.recommended.cpu_score +
            gap ug gr.minimum.gpu_score gr.recommended.gpu_score +
            gap ur gr.minimum.ram_gb gr.recommended.ram_gb) / 3 ≤
          (gap uc2 gr.minimum.cpu_score gr.recommended.cpu_score +
            gap ug2 gr.minimum.gpu_score gr.recommended.gpu_score +
            gap ur2 gr.minimum.ram_gb gr.recommended.ram_gb) / 3 := by
        have g1 := gap_mono_user uc uc2 gr.minimum.cpu_score
          gr.recommended.cpu_score hc hwc
        have g2 := gap_mono_user ug ug2 gr.minimum.gpu_score
          gr.recommended.gpu_score hg hwg
        have g3 := gap_mono_user ur ur2 gr.minimum.ram_gb
          gr.recommended.ram_gb hr hwr
        have h3 : (0 : ℚ) < 3 := by norm_num
        rw [div_le_div_iff_of_pos_right h3]
        linarith
      by_cases hm1 : (gap uc gr.minimum.cpu_score gr.recommended.cpu_score +
            gap ug gr.minimum.gpu_score gr.recommended.gpu_score +
            gap ur gr.minimum.ram_gb gr.recommended.ram_gb) / 3 ≥ 1 / 2
      · rw [if_pos hm1, if_pos (le_trans hm1 havg)]
      · rw [if_neg hm1]
        split_ifs <;> decide
  · rw [if_neg hA]
    have h0 : tierRank "Cannot Run" = 0 := by decide
    rw [h0]
    exact Nat.zero_le _

/-- Witness for C2 (amended): against a well-formed profile
(min 10/10/8, rec 20/20/16), raising scores from (12, 12, 8) — tier
"Low" — to (20, 20, 16) — tier "High" — does not lower the rank. -/
theorem tier_monotone_witness : tierRank "Low" ≤ tierRank "High" :=
  tier_monotone 12 12 8 20 20 16 ⟨⟨10, 10, 8⟩, ⟨20, 20, 16⟩⟩
    (by decide) (by decide) (by decide) (by decide) (by decide) (by decide)
    "Low" "High" (by decide) (by decide)
